import Mathlib

/-!
The 9P cache-cookie layer (`fs/9p/cache.c`, `fs/9p/cache.h`).

A shallow embedding of the cookie lifecycle and of the page fill / write-back
routines.  The FS-Cache backend and the page primitives are external to the
file: every call into them is appended to a log of events, and the value a
call returns is chosen by an environment that may look at the whole log so
far.  Pointers are natural numbers, `0` being `NULL`.
-/

namespace V9fsCache

/-- Pointer values; `0` is `NULL`. -/
abbrev Ptr := Nat

/-- Constants that cache.c takes from kernel headers (errno numbers and the
open-flag masks).  Their numeric values are not fixed by cache.c, so they are
parameters here; errno numbers are positive. -/
structure KConsts where
  ENOBUFS : Nat
  ENODATA : Nat
  ENOMEM : Nat
  O_ACCMODE : Nat
  O_RDONLY : Nat
  ENOBUFS_pos : 0 < ENOBUFS
  ENODATA_pos : 0 < ENODATA
  ENOMEM_pos : 0 < ENOMEM

/-- The values these constants have on Linux (asm-generic). -/
def linuxConsts : KConsts :=
  { ENOBUFS := 105, ENODATA := 61, ENOMEM := 12, O_ACCMODE := 3, O_RDONLY := 0,
    ENOBUFS_pos := by decide, ENODATA_pos := by decide, ENOMEM_pos := by decide }

/-- `#define CACHETAG_LEN 11` -/
def CACHETAG_LEN : Nat := 11

/-- The three page flags the cache code reads or writes. -/
structure page where
  index : Nat
  PG_locked : Bool
  PG_uptodate : Bool
  PG_fscache : Bool
deriving DecidableEq, Repr

/-- The two cookie definitions of cache.h. -/
inductive CookieDef where
  | v9fs_cache_session_index_def
  | v9fs_cache_inode_index_def
deriving DecidableEq, Repr

/-- The `netfs_data` argument of an acquire: the session or the file cookie. -/
inductive NetfsData where
  | v9ses
  | vcookie
deriving DecidableEq, Repr

/-- One call that leaves cache.c, with its arguments and, where it has one,
the value it returned. -/
inductive Event where
  | fscache_acquire_cookie (parent : Ptr) (cdef : CookieDef) (netfs_data : NetfsData) (ret : Ptr)
  | fscache_relinquish_cookie (cookie : Ptr) (retire : Nat)
  | invalidate_inode_pages2
  | spin_lock
  | spin_unlock
  | fscache_read_or_alloc_page (cookie : Ptr) (pg : page) (ret : Int)
  | fscache_read_or_alloc_pages (cookie : Ptr) (pages : List page) (nr : Nat) (ret : Int)
  | fscache_write_page (cookie : Ptr) (pg : page) (ret : Int)
  | fscache_uncache_page (cookie : Ptr) (pg : page)
  | SetPageUptodate (pg : page)
  | unlock_page (pg : page)
  | kmalloc (size : Nat) (ok : Bool)
deriving DecidableEq, Repr

/-- `struct address_space`, as far as cache.c looks at it. -/
structure address_space where
  nrpages : Nat
deriving DecidableEq, Repr

/-- `struct inode`, as far as cache.c looks at it: the value of
`S_IREG(inode->i_mode)` and the `i_mapping` pointer (`none` is `NULL`). -/
structure inode where
  S_IREG : Bool
  i_mapping : Option address_space
deriving DecidableEq, Repr

/-- `struct v9fs_cookie` of cache.h.  `lock` is true while the executing
thread holds the spinlock. -/
structure v9fs_cookie where
  lock : Bool
  inode : inode
  fscache : Ptr
deriving DecidableEq, Repr

/-- The members of `struct v9fs_session_info` that cache.c names: `cache`,
`cachetag` (`none` is `NULL`, otherwise the characters of the string) and
`fscache`. -/
structure v9fs_session_info where
  cache : Nat
  cachetag : Option (List Nat)
  fscache : Ptr
deriving DecidableEq, Repr

/-- `struct file`, as far as cache.c looks at it. -/
structure file where
  flags : Nat
  private_data : Ptr
deriving DecidableEq, Repr

/-- The environment: what the backend and the kernel answer.  Every answer
may depend on the log of calls made so far. -/
structure Env where
  primary_index : Ptr
  acquire_cookie : List Event → Ptr → CookieDef → NetfsData → Ptr
  read_or_alloc_page : List Event → Ptr → page → Int
  read_or_alloc_pages : List Event → Ptr → List page → Nat → Int × List page × Nat
  write_page : List Event → Ptr → page → Int
  uncache_page : List Event → Ptr → page → page
  kmalloc_ok : List Event → Nat → Bool
  jiffies : Nat
  objrep : v9fs_session_info → Nat → Nat

/-- One file entity (an inode inside its `v9fs_cookie`), the session it
belongs to, and the log of calls made so far. -/
structure State where
  vcookie : v9fs_cookie
  v9ses : v9fs_session_info
  log : List Event
deriving DecidableEq

/-- Appends one event to the log. -/
def State.emit (s : State) (e : Event) : State :=
  { s with log := s.log ++ [e] }

/-- Stores a new value in `vcookie->fscache`. -/
def State.set_fscache (s : State) (c : Ptr) : State :=
  { s with vcookie := { s.vcookie with fscache := c } }

/-- `spin_lock(&vcookie->lock)` -/
def spin_lock (s : State) : State :=
  { s with vcookie := { s.vcookie with lock := true }, log := s.log ++ [Event.spin_lock] }

/-- `spin_unlock(&vcookie->lock)` -/
def spin_unlock (s : State) : State :=
  { s with vcookie := { s.vcookie with lock := false }, log := s.log ++ [Event.spin_unlock] }

/-- `fscache_acquire_cookie(parent, def, netfs_data)`: logs the call and
returns the cookie pointer the backend answers with. -/
def fscache_acquire_cookie (E : Env) (s : State) (parent : Ptr) (cdef : CookieDef)
    (nd : NetfsData) : Ptr × State :=
  let c := E.acquire_cookie s.log parent cdef nd
  (c, s.emit (Event.fscache_acquire_cookie parent cdef nd c))

/-- `fscache_relinquish_cookie(cookie, retire)` -/
def fscache_relinquish_cookie (s : State) (cookie : Ptr) (retire : Nat) : State :=
  s.emit (Event.fscache_relinquish_cookie cookie retire)

/-- cache.c lines 71-78. -/
def v9fs_cache_session_get_cookie (E : Env) (s : State) : State :=
  let r := fscache_acquire_cookie E s E.primary_index
    CookieDef.v9fs_cache_session_index_def NetfsData.v9ses
  { r.2 with v9ses := { r.2.v9ses with fscache := r.1 } }

/-- cache.c lines 80-86. -/
def v9fs_cache_session_put_cookie (s : State) : State :=
  let s1 := fscache_relinquish_cookie s s.v9ses.fscache 0
  { s1 with v9ses := { s1.v9ses with fscache := 0 } }

/-- cache.c lines 128-147. -/
def v9fs_cache_inode_get_cookie (E : Env) (s : State) : State :=
  if !s.vcookie.inode.S_IREG then s
  else if s.vcookie.fscache ≠ 0 then s
  else
    let r := fscache_acquire_cookie E s s.v9ses.fscache
      CookieDef.v9fs_cache_inode_index_def NetfsData.vcookie
    r.2.set_fscache r.1

/-- cache.c lines 149-161. -/
def v9fs_cache_inode_put_cookie (s : State) : State :=
  if s.vcookie.fscache = 0 then s
  else (fscache_relinquish_cookie s s.vcookie.fscache 0).set_fscache 0

/-- cache.c lines 163-178. -/
def v9fs_cache_inode_flush_cookie (s : State) : State :=
  if s.vcookie.fscache = 0 then s
  else
    let s1 :=
      match s.vcookie.inode.i_mapping with
      | some m => if m.nrpages ≠ 0 then s.emit Event.invalidate_inode_pages2 else s
      | none => s
    (fscache_relinquish_cookie s1 s1.vcookie.fscache 1).set_fscache 0

/-- cache.c lines 180-197. -/
def v9fs_cache_inode_set_cookie (K : KConsts) (E : Env) (s : State) (filp : file) : State :=
  let s1 := if s.vcookie.fscache = 0 then v9fs_cache_inode_get_cookie E s else s
  let s2 := spin_lock s1
  let s3 :=
    if filp.flags &&& K.O_ACCMODE ≠ K.O_RDONLY then v9fs_cache_inode_put_cookie s2
    else v9fs_cache_inode_get_cookie E s2
  spin_unlock s3

/-- cache.c lines 199-223.  The parent handed to the acquire is the session's
`cache` member. -/
def v9fs_cache_inode_reset_cookie (E : Env) (s : State) : State :=
  if s.vcookie.fscache = 0 then s
  else
    let s1 := spin_lock s
    let s2 := fscache_relinquish_cookie s1 s1.vcookie.fscache 1
    let r := fscache_acquire_cookie E s2 s2.v9ses.cache
      CookieDef.v9fs_cache_inode_index_def NetfsData.vcookie
    spin_unlock (r.2.set_fscache r.1)

/-- cache.c lines 225-233: the completion callback of a fill.  It works on
the page alone; the log records the two page primitives it calls. -/
def v9fs_vfs_readpage_complete (log : List Event) (pg : page) (error : Int) :
    page × List Event :=
  let r1 : page × List Event :=
    if error = 0 then ({ pg with PG_uptodate := true }, log ++ [Event.SetPageUptodate pg])
    else (pg, log)
  ({ r1.1 with PG_locked := false }, r1.2 ++ [Event.unlock_page r1.1])

/-- cache.c lines 235-261. -/
def __v9fs_readpage_from_fscache (K : KConsts) (E : Env) (s : State) (pg : page) :
    Int × State :=
  if s.vcookie.fscache = 0 then (-(K.ENOBUFS : Int), s)
  else
    let ret := E.read_or_alloc_page s.log s.vcookie.fscache pg
    let s1 := s.emit (Event.fscache_read_or_alloc_page s.vcookie.fscache pg ret)
    if ret = -(K.ENOBUFS : Int) ∨ ret = -(K.ENODATA : Int) then (1, s1)
    else if ret = 0 then (ret, s1)
    else (ret, s1)

/-- cache.h lines 75-79. -/
def v9fs_readpage_from_fscache (K : KConsts) (E : Env) (s : State) (pg : page) :
    Int × State :=
  __v9fs_readpage_from_fscache K E s pg

/-- How a routine that contains `BUG_ON` ends: it returns a value, or an
assertion fires. -/
inductive Outcome (α : Type) where
  | ret (v : α)
  | BUG
deriving DecidableEq, Repr

/-- An `unsigned *` argument: the pointer itself and the number it points to. -/
structure uint_ptr where
  addr : Ptr
  val : Nat
deriving DecidableEq, Repr

/-- What the batch read leaves behind: how it ended, the caller's page list,
the pending count `*nr_pages`, and the state. -/
structure ReadpagesResult where
  out : Outcome Int
  pages : List page
  nr : Nat
  st : State

/-- cache.c lines 263-294.  `mapping` is only forwarded to the backend and is
left out.  The second assertion of the accepted case tests `nr_pages`, the
pointer. -/
def __v9fs_readpages_from_fscache (K : KConsts) (E : Env) (s : State) (pages : List page)
    (nr_pages : uint_ptr) : ReadpagesResult :=
  if s.vcookie.fscache = 0 then
    { out := Outcome.ret (-(K.ENOBUFS : Int)), pages := pages, nr := nr_pages.val, st := s }
  else
    let r := E.read_or_alloc_pages s.log s.vcookie.fscache pages nr_pages.val
    let s1 := s.emit (Event.fscache_read_or_alloc_pages s.vcookie.fscache pages nr_pages.val r.1)
    if r.1 = -(K.ENOBUFS : Int) ∨ r.1 = -(K.ENODATA : Int) then
      { out := Outcome.ret 1, pages := r.2.1, nr := r.2.2, st := s1 }
    else if r.1 = 0 then
      if ¬ r.2.1 = [] then { out := Outcome.BUG, pages := r.2.1, nr := r.2.2, st := s1 }
      else if nr_pages.addr ≠ 0 then
        { out := Outcome.BUG, pages := r.2.1, nr := r.2.2, st := s1 }
      else { out := Outcome.ret r.1, pages := r.2.1, nr := r.2.2, st := s1 }
    else { out := Outcome.ret r.1, pages := r.2.1, nr := r.2.2, st := s1 }

/-- cache.h lines 81-88. -/
def v9fs_readpages_from_fscache (K : KConsts) (E : Env) (s : State) (pages : List page)
    (nr_pages : uint_ptr) : ReadpagesResult :=
  __v9fs_readpages_from_fscache K E s pages nr_pages

/-- Conversion of an `int` to `uint16_t`. -/
def to_uint16 (x : Int) : Nat := (x % 65536).toNat

/-- The characters `"%lu"` prints for `n`. -/
def decimal (n : Nat) : List Nat := (Nat.toDigits 10 n).map Char.toNat

/-- `memcpy(dst, src, n)`: the first `n` bytes of `dst` become the bytes
`src 0 .. src (n-1)`. -/
def memcpy (dst : List Nat) (src : Nat → Nat) (n : Nat) : List Nat :=
  (List.range n).map src ++ dst.drop n

/-- cache.c lines 92-100.  `scnprintf` writes at most `CACHETAG_LEN - 1`
characters and returns how many it wrote. -/
def v9fs_random_cachetag (K : KConsts) (E : Env) (s : State) : Int × State :=
  let ok := E.kmalloc_ok s.log CACHETAG_LEN
  let s1 := s.emit (Event.kmalloc CACHETAG_LEN ok)
  if !ok then
    (-(K.ENOMEM : Int), { s1 with v9ses := { s1.v9ses with cachetag := none } })
  else
    let str := (decimal E.jiffies).take (CACHETAG_LEN - 1)
    ((str.length : Int), { s1 with v9ses := { s1.v9ses with cachetag := some str } })

/-- cache.c lines 102-126.  `klen` is a `uint16_t`; the bytes copied into the
buffer are read from the address of the session structure (`E.objrep` gives
the byte at each offset from that address).  Returns the key length, the
buffer and the state. -/
def v9fs_cache_session_get_key (K : KConsts) (E : Env) (s : State) (buffer : List Nat)
    (bufmax : Nat) : Nat × List Nat × State :=
  let r : Option Nat × State :=
    match s.v9ses.cachetag with
    | none =>
      let t := v9fs_random_cachetag K E s
      let klen := to_uint16 t.1
      if (klen : Int) < 0 then (none, t.2) else (some klen, t.2)
    | some tag => (some (to_uint16 (tag.length : Int)), s)
  match r.1 with
  | none => (0, buffer, r.2)
  | some klen =>
    if klen > bufmax then (0, buffer, r.2)
    else (klen, memcpy buffer (E.objrep r.2.v9ses) klen, r.2)

/-- Number of backend acquire calls in a log. -/
def countAcquire : List Event → Nat
  | [] => 0
  | Event.fscache_acquire_cookie _ _ _ _ :: l => countAcquire l + 1
  | _ :: l => countAcquire l

/-- Result of the last acquire call in a log, if there is one. -/
def lastAcquire : List Event → Option Ptr
  | [] => none
  | Event.fscache_acquire_cookie _ _ _ r :: l =>
    match lastAcquire l with
    | some x => some x
    | none => some r
  | _ :: l => lastAcquire l

/-- The destroy flags of the relinquish calls in a log, in order. -/
def relinquishFlags : List Event → List Nat
  | [] => []
  | Event.fscache_relinquish_cookie _ f :: l => f :: relinquishFlags l
  | _ :: l => relinquishFlags l

/-- Number of fill requests (single page or batch) in a log. -/
def countFill : List Event → Nat
  | [] => 0
  | Event.fscache_read_or_alloc_page _ _ _ :: l => countFill l + 1
  | Event.fscache_read_or_alloc_pages _ _ _ _ :: l => countFill l + 1
  | _ :: l => countFill l

/-- Number of `unlock_page` calls in a log. -/
def countUnlock : List Event → Nat
  | [] => 0
  | Event.unlock_page _ :: l => countUnlock l + 1
  | _ :: l => countUnlock l

/-- Number of `SetPageUptodate` calls in a log. -/
def countSetUptodate : List Event → Nat
  | [] => 0
  | Event.SetPageUptodate _ :: l => countSetUptodate l + 1
  | _ :: l => countSetUptodate l

/-- A backend for worked examples: every acquire answers `acq`, every fill
answers `fill` (a batch fill also empties the list and zeroes the count),
every write answers `wr`, uncache clears the page flag, the tag allocation
succeeds, and the session structure reads as zero bytes. -/
def exampleEnv (acq : Ptr) (fill wr : Int) : Env :=
  { primary_index := 1
    acquire_cookie := fun _ _ _ _ => acq
    read_or_alloc_page := fun _ _ _ => fill
    read_or_alloc_pages := fun _ _ _ _ => (fill, [], 0)
    write_page := fun _ _ _ => wr
    uncache_page := fun _ _ pg => { pg with PG_fscache := false }
    kmalloc_ok := fun _ _ => true
    jiffies := 4294937296
    objrep := fun _ _ => 0 }

/-- A session for worked examples: cache mode 2, tag "abc", session cookie at
address 100. -/
def exampleSession : v9fs_session_info :=
  { cache := 2, cachetag := some [97, 98, 99], fscache := 100 }

/-- A regular file with two pages in memory whose file cookie holds `c`, in
the example session, with an empty log. -/
def exampleState (c : Ptr) : State :=
  { vcookie := { lock := false, inode := { S_IREG := true, i_mapping := some { nrpages := 2 } },
                 fscache := c }
    v9ses := exampleSession
    log := [] }

/-- A locked page that is bound to the cache and not yet up to date. -/
def examplePage : page :=
  { index := 0, PG_locked := true, PG_uptodate := false, PG_fscache := true }

/-- The example backend with the tag allocation failing. -/
def noMemEnv : Env :=
  { exampleEnv 8 0 0 with kmalloc_ok := fun _ _ => false }

/-- The example state for a session mounted without a cache tag. -/
def untaggedState : State :=
  { exampleState 7 with v9ses := { exampleSession with cachetag := none } }

/-- True when the step from `a` to `b` switches the file cookie's slot
reference between null and non-null. -/
def slotSwitch (a b : State) : Bool :=
  decide (a.vcookie.fscache = 0) != decide (b.vcookie.fscache = 0)

/-- Over the successive states of an execution: every step that switches the
slot reference between null and non-null starts with the lock flag held. -/
def switchesUnderLock : List State → Bool
  | a :: b :: l => (!slotSwitch a b || a.vcookie.lock) && switchesUnderLock (b :: l)
  | _ => true

/-- Successive states of `v9fs_cache_inode_get_cookie`: entry, and the state
after the check and, when it passes, the acquire and the store.  The routine
has no lock call, so the lock flag is the same throughout. -/
def v9fs_cache_inode_get_cookie_steps (E : Env) (s : State) : List State :=
  [s, v9fs_cache_inode_get_cookie E s]

/-- Successive states of `v9fs_cache_inode_put_cookie`: entry and exit. -/
def v9fs_cache_inode_put_cookie_steps (s : State) : List State :=
  [s, v9fs_cache_inode_put_cookie s]

/-- Successive states of `v9fs_cache_inode_flush_cookie`: entry and exit. -/
def v9fs_cache_inode_flush_cookie_steps (s : State) : List State :=
  [s, v9fs_cache_inode_flush_cookie s]

/-- Successive states of `v9fs_cache_inode_set_cookie`: entry, after the
preliminary acquire (lines 186-187), after `spin_lock`, after the release or
acquire chosen by the access mode, after `spin_unlock`. -/
def v9fs_cache_inode_set_cookie_steps (K : KConsts) (E : Env) (s : State) (filp : file) :
    List State :=
  let s1 := if s.vcookie.fscache = 0 then v9fs_cache_inode_get_cookie E s else s
  let s2 := spin_lock s1
  let s3 :=
    if filp.flags &&& K.O_ACCMODE ≠ K.O_RDONLY then v9fs_cache_inode_put_cookie s2
    else v9fs_cache_inode_get_cookie E s2
  [s, s1, s2, s3, spin_unlock s3]

/-- Successive states of `v9fs_cache_inode_reset_cookie`: entry alone when
there is no cookie; otherwise entry, after `spin_lock`, after the relinquish,
after the acquire and the store of its result, after `spin_unlock`. -/
def v9fs_cache_inode_reset_cookie_steps (E : Env) (s : State) : List State :=
  if s.vcookie.fscache = 0 then [s]
  else
    let s1 := spin_lock s
    let s2 := fscache_relinquish_cookie s1 s1.vcookie.fscache 1
    let r := fscache_acquire_cookie E s2 s2.v9ses.cache
      CookieDef.v9fs_cache_inode_index_def NetfsData.vcookie
    let s3 := r.2.set_fscache r.1
    [s, s1, s2, s3, spin_unlock s3]

/-- What the backend answers to the acquire that `v9fs_cache_inode_set_cookie`
makes before taking the lock (cache.c line 187), for a regular file without a
cookie. -/
def firstAcquireAnswer (E : Env) (s : State) : Ptr :=
  E.acquire_cookie s.log s.v9ses.fscache CookieDef.v9fs_cache_inode_index_def
    NetfsData.vcookie

/-- What the backend answers to the acquire that `v9fs_cache_inode_set_cookie`
makes under the lock (cache.c line 194) after the first one answered `NULL`. -/
def secondAcquireAnswer (E : Env) (s : State) : Ptr :=
  E.acquire_cookie
    (s.log ++ [Event.fscache_acquire_cookie s.v9ses.fscache
      CookieDef.v9fs_cache_inode_index_def NetfsData.vcookie (firstAcquireAnswer E s),
      Event.spin_lock])
    s.v9ses.fscache CookieDef.v9fs_cache_inode_index_def NetfsData.vcookie

/-! ## Theorems -/

/-- Without a backend slot the single-page read answers `-ENOBUFS` and leaves
the state alone. -/
theorem readpage_without_slot (K : KConsts) (E : Env) (s : State) (pg : page)
    (h : s.vcookie.fscache = 0) :
    __v9fs_readpage_from_fscache K E s pg = (-(K.ENOBUFS : Int), s) := by
  simp [__v9fs_readpage_from_fscache, h]

/-- One more acquire at the end of a log raises the count by one. -/
theorem countAcquire_append_acquire (l : List Event) (p : Ptr) (d : CookieDef)
    (n : NetfsData) (r : Ptr) :
    countAcquire (l ++ [Event.fscache_acquire_cookie p d n r]) = countAcquire l + 1 := by
  induction l with
  | nil => rfl
  | cons e l ih => cases e <;> simp [countAcquire, ih]

/-- C1: the single-page read returns the not-cacheable code `-ENOBUFS`, with
the log untouched (no backend call), when the file cookie has no backend
slot; otherwise it issues one fill and returns 1 when the fill outcome `r` is
`-ENOBUFS` or `-ENODATA`, 0 when `r` is 0, and `r` itself for every other
`r`. -/
theorem readpage_from_fscache_classification (K : KConsts) (E : Env) (s : State) (pg : page) :
    (s.vcookie.fscache = 0 →
      __v9fs_readpage_from_fscache K E s pg = (-(K.ENOBUFS : Int), s)) ∧
    (s.vcookie.fscache ≠ 0 →
      (__v9fs_readpage_from_fscache K E s pg).2 =
        s.emit (Event.fscache_read_or_alloc_page s.vcookie.fscache pg
          (E.read_or_alloc_page s.log s.vcookie.fscache pg)) ∧
      (E.read_or_alloc_page s.log s.vcookie.fscache pg = -(K.ENOBUFS : Int) ∨
        E.read_or_alloc_page s.log s.vcookie.fscache pg = -(K.ENODATA : Int) →
        (__v9fs_readpage_from_fscache K E s pg).1 = 1) ∧
      (E.read_or_alloc_page s.log s.vcookie.fscache pg = 0 →
        (__v9fs_readpage_from_fscache K E s pg).1 = 0) ∧
      (E.read_or_alloc_page s.log s.vcookie.fscache pg ≠ -(K.ENOBUFS : Int) →
        E.read_or_alloc_page s.log s.vcookie.fscache pg ≠ -(K.ENODATA : Int) →
        E.read_or_alloc_page s.log s.vcookie.fscache pg ≠ 0 →
        (__v9fs_readpage_from_fscache K E s pg).1 =
          E.read_or_alloc_page s.log s.vcookie.fscache pg)) := by
  have hB : (0 : Int) ≠ -(K.ENOBUFS : Int) := by
    have := K.ENOBUFS_pos
    omega
  have hD : (0 : Int) ≠ -(K.ENODATA : Int) := by
    have := K.ENODATA_pos
    omega
  refine ⟨fun h => by simp [__v9fs_readpage_from_fscache, h], fun h => ?_⟩
  refine ⟨?_, ?_, ?_, ?_⟩
  · unfold __v9fs_readpage_from_fscache
    simp only [h, if_false]
    split_ifs <;> rfl
  · intro hr
    unfold __v9fs_readpage_from_fscache
    simp only [h, if_false]
    rw [if_pos hr]
  · intro hr
    unfold __v9fs_readpage_from_fscache
    simp only [h, if_false]
    rw [hr]
    have h1 : ¬ ((0 : Int) = -(K.ENOBUFS : Int) ∨ (0 : Int) = -(K.ENODATA : Int)) := by
      rintro (h1 | h1)
      · exact hB h1
      · exact hD h1
    rw [if_neg h1]
    simp
  · intro h1 h2 h3
    unfold __v9fs_readpage_from_fscache
    simp only [h, if_false]
    have h4 : ¬ (E.read_or_alloc_page s.log s.vcookie.fscache pg = -(K.ENOBUFS : Int) ∨
        E.read_or_alloc_page s.log s.vcookie.fscache pg = -(K.ENODATA : Int)) := by
      rintro (h4 | h4)
      · exact h1 h4
      · exact h2 h4
    rw [if_neg h4]
    simp

/-- C1, at a concrete input: a file with cookie 7 whose fill answers
`-ENODATA` (-61) reads as a miss, 1. -/
theorem readpage_from_fscache_classification_witness :
    (exampleEnv 8 (-61) 0).read_or_alloc_page (exampleState 7).log 7 examplePage
        = -(linuxConsts.ENODATA : Int) ∧
      (__v9fs_readpage_from_fscache linuxConsts (exampleEnv 8 (-61) 0) (exampleState 7)
        examplePage).1 = 1 :=
  ⟨by decide,
   ((readpage_from_fscache_classification linuxConsts (exampleEnv 8 (-61) 0) (exampleState 7)
      examplePage).2 (by decide)).2.1 (Or.inr (by decide))⟩

/-- C2 fails as stated: a regular file without a cookie is opened read-only
(flags 0) against a backend that answers every acquire with `NULL`; the call
acquires twice, once before the lock and once under it, and the file cookie's
slot reference is still null afterwards, so the cookie is not active. -/
theorem set_cookie_read_only_null_backend :
    (exampleState 0).vcookie.inode.S_IREG = true ∧
    (0 : Nat) &&& linuxConsts.O_ACCMODE = linuxConsts.O_RDONLY ∧
    (v9fs_cache_inode_set_cookie linuxConsts (exampleEnv 0 0 0) (exampleState 0)
      { flags := 0, private_data := 0 }).vcookie.fscache = 0 ∧
    (v9fs_cache_inode_set_cookie linuxConsts (exampleEnv 0 0 0) (exampleState 0)
      { flags := 0, private_data := 0 }).log =
      [Event.fscache_acquire_cookie 100 CookieDef.v9fs_cache_inode_index_def
         NetfsData.vcookie 0,
       Event.spin_lock,
       Event.fscache_acquire_cookie 100 CookieDef.v9fs_cache_inode_index_def
         NetfsData.vcookie 0,
       Event.spin_unlock] := by
  decide

/-- C2, amended: on a regular file, after the open-time policy
`v9fs_cache_inode_set_cookie`.  For a read-only access mode: a cookie that had
a slot keeps it, and the call only locks and unlocks; a cookie that had none
holds the answer of the first acquire when that is a non-null slot (one
acquire in all), and otherwise the answer of the second acquire, made under
the lock (two in all), so it is active exactly when the backend answered one
of the two with a non-null slot; nothing is relinquished.  For any other
access mode the slot reference is null and every relinquish of the call
carried the destroy flag 0. -/
theorem set_cookie_open_mode (K : KConsts) (E : Env) (s : State) (filp : file)
    (hreg : s.vcookie.inode.S_IREG = true) :
    (∃ new, (v9fs_cache_inode_set_cookie K E s filp).log = s.log ++ new ∧
      (filp.flags &&& K.O_ACCMODE = K.O_RDONLY →
        (s.vcookie.fscache ≠ 0 →
          (v9fs_cache_inode_set_cookie K E s filp).vcookie.fscache = s.vcookie.fscache ∧
          countAcquire new = 0 ∧
          new = [Event.spin_lock, Event.spin_unlock]) ∧
        (s.vcookie.fscache = 0 →
          lastAcquire new = some (v9fs_cache_inode_set_cookie K E s filp).vcookie.fscache ∧
          (firstAcquireAnswer E s ≠ 0 →
            (v9fs_cache_inode_set_cookie K E s filp).vcookie.fscache = firstAcquireAnswer E s ∧
            countAcquire new = 1) ∧
          (firstAcquireAnswer E s = 0 →
            (v9fs_cache_inode_set_cookie K E s filp).vcookie.fscache =
              secondAcquireAnswer E s ∧
            countAcquire new = 2) ∧
          ((v9fs_cache_inode_set_cookie K E s filp).vcookie.fscache ≠ 0 ↔
            firstAcquireAnswer E s ≠ 0 ∨ secondAcquireAnswer E s ≠ 0)) ∧
        relinquishFlags new = []) ∧
      (filp.flags &&& K.O_ACCMODE ≠ K.O_RDONLY →
        (v9fs_cache_inode_set_cookie K E s filp).vcookie.fscache = 0 ∧
        ∀ f ∈ relinquishFlags new, f = 0)) := by
  by_cases hro : filp.flags &&& K.O_ACCMODE = K.O_RDONLY
  · by_cases h0 : s.vcookie.fscache = 0
    · by_cases h1 : firstAcquireAnswer E s = 0
      · have h1' : E.acquire_cookie s.log s.v9ses.fscache
            CookieDef.v9fs_cache_inode_index_def NetfsData.vcookie = 0 := h1
        have hfin : (v9fs_cache_inode_set_cookie K E s filp).vcookie.fscache =
            secondAcquireAnswer E s := by
          simp [v9fs_cache_inode_set_cookie, v9fs_cache_inode_get_cookie, spin_lock,
            spin_unlock, fscache_acquire_cookie, State.emit, State.set_fscache, hro, h0, h1',
            hreg, secondAcquireAnswer, firstAcquireAnswer]
        refine ⟨[Event.fscache_acquire_cookie s.v9ses.fscache
            CookieDef.v9fs_cache_inode_index_def NetfsData.vcookie 0, Event.spin_lock,
          Event.fscache_acquire_cookie s.v9ses.fscache
            CookieDef.v9fs_cache_inode_index_def NetfsData.vcookie
            (secondAcquireAnswer E s),
          Event.spin_unlock], ?_, ?_, ?_⟩
        · simp [v9fs_cache_inode_set_cookie, v9fs_cache_inode_get_cookie, spin_lock,
            spin_unlock, fscache_acquire_cookie, State.emit, State.set_fscache, hro, h0, h1',
            hreg, secondAcquireAnswer, firstAcquireAnswer]
        · intro _
          refine ⟨fun h => absurd h0 h, fun _ => ⟨?_, ?_, ?_, ?_⟩, ?_⟩
          · rw [hfin]
            simp [lastAcquire]
          · intro h
            exact absurd h1 h
          · intro _
            exact ⟨hfin, by simp [countAcquire]⟩
          · rw [hfin]
            simp [h1]
          · simp [relinquishFlags]
        · intro h
          exact absurd hro h
      · have h1' : ¬ E.acquire_cookie s.log s.v9ses.fscache
            CookieDef.v9fs_cache_inode_index_def NetfsData.vcookie = 0 := h1
        have hfin : (v9fs_cache_inode_set_cookie K E s filp).vcookie.fscache =
            firstAcquireAnswer E s := by
          simp [v9fs_cache_inode_set_cookie, v9fs_cache_inode_get_cookie, spin_lock,
            spin_unlock, fscache_acquire_cookie, State.emit, State.set_fscache, hro, h0, h1',
            hreg, firstAcquireAnswer]
        refine ⟨[Event.fscache_acquire_cookie s.v9ses.fscache
            CookieDef.v9fs_cache_inode_index_def NetfsData.vcookie
            (firstAcquireAnswer E s), Event.spin_lock,
          Event.spin_unlock], ?_, ?_, ?_⟩
        · simp [v9fs_cache_inode_set_cookie, v9fs_cache_inode_get_cookie, spin_lock,
            spin_unlock, fscache_acquire_cookie, State.emit, State.set_fscache, hro, h0, h1',
            hreg, firstAcquireAnswer]
        · intro _
          refine ⟨fun h => absurd h0 h, fun _ => ⟨?_, ?_, ?_, ?_⟩, ?_⟩
          · rw [hfin]
            simp [lastAcquire]
          · intro _
            exact ⟨hfin, by simp [countAcquire]⟩
          · intro h
            exact absurd h h1
          · rw [hfin]
            simp [h1]
          · simp [relinquishFlags]
        · intro h
          exact absurd hro h
    · refine ⟨[Event.spin_lock, Event.spin_unlock], ?_, ?_, ?_⟩
      · simp [v9fs_cache_inode_set_cookie, v9fs_cache_inode_get_cookie, spin_lock,
          spin_unlock, hro, h0, hreg]
      · intro _
        refine ⟨fun _ => ⟨?_, ?_, rfl⟩, fun h => absurd h h0, ?_⟩
        · simp [v9fs_cache_inode_set_cookie, v9fs_cache_inode_get_cookie, spin_lock,
            spin_unlock, hro, h0, hreg]
        · simp [countAcquire]
        · simp [relinquishFlags]
      · intro h
        exact absurd hro h
  · by_cases h0 : s.vcookie.fscache = 0
    · by_cases h1 : E.acquire_cookie s.log s.v9ses.fscache
          CookieDef.v9fs_cache_inode_index_def NetfsData.vcookie = 0
      · refine ⟨[Event.fscache_acquire_cookie s.v9ses.fscache
            CookieDef.v9fs_cache_inode_index_def NetfsData.vcookie 0, Event.spin_lock,
          Event.spin_unlock], ?_, ?_, ?_⟩
        · simp [v9fs_cache_inode_set_cookie, v9fs_cache_inode_get_cookie,
            v9fs_cache_inode_put_cookie, spin_lock,
            spin_unlock, fscache_acquire_cookie, State.emit, State.set_fscache, hro, h0, h1, hreg]
        · intro h
          exact absurd h hro
        · intro _
          simp [v9fs_cache_inode_set_cookie, v9fs_cache_inode_get_cookie,
            v9fs_cache_inode_put_cookie, spin_lock,
            spin_unlock, fscache_acquire_cookie, State.emit, State.set_fscache, hro, h0, h1, hreg,
            relinquishFlags]
      · refine ⟨[Event.fscache_acquire_cookie s.v9ses.fscache
            CookieDef.v9fs_cache_inode_index_def NetfsData.vcookie
            (E.acquire_cookie s.log s.v9ses.fscache
              CookieDef.v9fs_cache_inode_index_def NetfsData.vcookie), Event.spin_lock,
          Event.fscache_relinquish_cookie (E.acquire_cookie s.log s.v9ses.fscache
              CookieDef.v9fs_cache_inode_index_def NetfsData.vcookie) 0,
          Event.spin_unlock], ?_, ?_, ?_⟩
        · simp [v9fs_cache_inode_set_cookie, v9fs_cache_inode_get_cookie,
            v9fs_cache_inode_put_cookie, fscache_relinquish_cookie, spin_lock,
            spin_unlock, fscache_acquire_cookie, State.emit, State.set_fscache, hro, h0, h1, hreg]
        · intro h
          exact absurd h hro
        · intro _
          simp [v9fs_cache_inode_set_cookie, v9fs_cache_inode_get_cookie,
            v9fs_cache_inode_put_cookie, fscache_relinquish_cookie, spin_lock,
            spin_unlock, fscache_acquire_cookie, State.emit, State.set_fscache, hro, h0, h1, hreg,
            relinquishFlags]
    · refine ⟨[Event.spin_lock, Event.fscache_relinquish_cookie s.vcookie.fscache 0,
          Event.spin_unlock], ?_, ?_, ?_⟩
      · simp [v9fs_cache_inode_set_cookie, v9fs_cache_inode_put_cookie,
          fscache_relinquish_cookie, spin_lock, spin_unlock, State.emit, State.set_fscache,
          hro, h0]
      · intro h
        exact absurd h hro
      · intro _
        simp [v9fs_cache_inode_set_cookie, v9fs_cache_inode_put_cookie,
          fscache_relinquish_cookie, spin_lock, spin_unlock, State.emit, State.set_fscache,
          hro, h0, relinquishFlags]

/-- C2 amended, at a concrete input: a regular file without a cookie opened
read-only (flags 0) against a backend that answers every acquire with cookie
8 ends with the cookie holding slot 8, after one acquire. -/
theorem set_cookie_open_mode_witness :
    (exampleState 0).vcookie.inode.S_IREG = true ∧
    firstAcquireAnswer (exampleEnv 8 0 0) (exampleState 0) = 8 ∧
    ∃ new, (v9fs_cache_inode_set_cookie linuxConsts (exampleEnv 8 0 0) (exampleState 0)
          { flags := 0, private_data := 0 }).log = (exampleState 0).log ++ new ∧
      (v9fs_cache_inode_set_cookie linuxConsts (exampleEnv 8 0 0) (exampleState 0)
        { flags := 0, private_data := 0 }).vcookie.fscache =
        firstAcquireAnswer (exampleEnv 8 0 0) (exampleState 0) ∧
      countAcquire new = 1 ∧
      relinquishFlags new = [] :=
  ⟨by decide, by decide, by
    obtain ⟨new, hlog, hro, _⟩ := set_cookie_open_mode linuxConsts (exampleEnv 8 0 0)
      (exampleState 0) { flags := 0, private_data := 0 } (by decide)
    have h := hro (by decide)
    have h2 := (h.2.1 (by decide)).2.1 (by decide)
    exact ⟨new, hlog, h2.1, h2.2, h.2.2⟩⟩

/-- C3, evaluated: for a file with live cookie 7 in a session whose `fscache`
cookie is 100 and whose `cache` member is 2, the reset relinquishes cookie 7
with the destroy flag and then acquires under parent 2, all between lock and
unlock, whereas `v9fs_cache_inode_get_cookie` in the same session acquires
under parent 100; with no live cookie the reset changes nothing. -/
theorem reset_cookie_acquires_under_cache_member :
    (exampleState 7).v9ses.fscache = 100 ∧
    (v9fs_cache_inode_reset_cookie (exampleEnv 8 0 0) (exampleState 7)).log =
      [Event.spin_lock, Event.fscache_relinquish_cookie 7 1,
       Event.fscache_acquire_cookie 2 CookieDef.v9fs_cache_inode_index_def NetfsData.vcookie 8,
       Event.spin_unlock] ∧
    (v9fs_cache_inode_get_cookie (exampleEnv 8 0 0) (exampleState 0)).log =
      [Event.fscache_acquire_cookie 100 CookieDef.v9fs_cache_inode_index_def
        NetfsData.vcookie 8] ∧
    v9fs_cache_inode_reset_cookie (exampleEnv 8 0 0) (exampleState 0) = exampleState 0 := by
  decide

/-- C4: on a file with a live cookie, `v9fs_cache_inode_flush_cookie` first
invalidates the in-memory pages when the inode has a mapping with pages, then
relinquishes the cookie with the destroy flag 1, and leaves the slot reference
null; a single-page read that follows returns a value other than 0 and leaves
the state, log included, as it was (no backend fill). -/
theorem flush_cookie_then_read_misses (s : State) (h : s.vcookie.fscache ≠ 0) :
    (∀ m, s.vcookie.inode.i_mapping = some m → m.nrpages ≠ 0 →
      (v9fs_cache_inode_flush_cookie s).log =
        s.log ++ [Event.invalidate_inode_pages2,
          Event.fscache_relinquish_cookie s.vcookie.fscache 1]) ∧
    ((s.vcookie.inode.i_mapping = none ∨ s.vcookie.inode.i_mapping = some { nrpages := 0 }) →
      (v9fs_cache_inode_flush_cookie s).log =
        s.log ++ [Event.fscache_relinquish_cookie s.vcookie.fscache 1]) ∧
    (v9fs_cache_inode_flush_cookie s).vcookie.fscache = 0 ∧
    ∀ (K : KConsts) (E : Env) (pg : page),
      (__v9fs_readpage_from_fscache K E (v9fs_cache_inode_flush_cookie s) pg).1 ≠ 0 ∧
      (__v9fs_readpage_from_fscache K E (v9fs_cache_inode_flush_cookie s) pg).2 =
        v9fs_cache_inode_flush_cookie s ∧
      countFill (__v9fs_readpage_from_fscache K E (v9fs_cache_inode_flush_cookie s) pg).2.log =
        countFill (v9fs_cache_inode_flush_cookie s).log := by
  have hnull : (v9fs_cache_inode_flush_cookie s).vcookie.fscache = 0 := by
    simp [v9fs_cache_inode_flush_cookie, h, State.set_fscache]
  refine ⟨?_, ?_, hnull, ?_⟩
  · intro m hm hn
    simp [v9fs_cache_inode_flush_cookie, h, hm, hn, State.set_fscache, State.emit,
      fscache_relinquish_cookie]
  · rintro (hm | hm) <;>
      simp [v9fs_cache_inode_flush_cookie, h, hm, State.set_fscache, State.emit,
        fscache_relinquish_cookie]
  · intro K E pg
    have hread : __v9fs_readpage_from_fscache K E (v9fs_cache_inode_flush_cookie s) pg =
        (-(K.ENOBUFS : Int), v9fs_cache_inode_flush_cookie s) :=
      readpage_without_slot K E (v9fs_cache_inode_flush_cookie s) pg hnull
    rw [hread]
    refine ⟨?_, rfl, rfl⟩
    have := K.ENOBUFS_pos
    show -(K.ENOBUFS : Int) ≠ 0
    omega

/-- C4, at a concrete input: a regular file with two pages in memory and live
cookie 7. -/
theorem flush_cookie_then_read_misses_witness :
    (exampleState 7).vcookie.fscache ≠ 0 ∧
    (v9fs_cache_inode_flush_cookie (exampleState 7)).log =
      [Event.invalidate_inode_pages2, Event.fscache_relinquish_cookie 7 1] ∧
    (__v9fs_readpage_from_fscache linuxConsts (exampleEnv 8 0 0)
      (v9fs_cache_inode_flush_cookie (exampleState 7)) examplePage).1 ≠ 0 :=
  ⟨by decide,
   (flush_cookie_then_read_misses (exampleState 7) (by decide)).1 { nrpages := 2 } rfl
     (by decide),
   ((flush_cookie_then_read_misses (exampleState 7) (by decide)).2.2.2 linuxConsts
     (exampleEnv 8 0 0) examplePage).1⟩

/-- C5 fails as stated: for a regular file without a cookie, against a backend
that answers every acquire with `NULL`, two calls of
`v9fs_cache_inode_get_cookie` invoke the backend acquire twice. -/
theorem get_cookie_twice_null_backend :
    (exampleState 0).vcookie.fscache = 0 ∧
    countAcquire (v9fs_cache_inode_get_cookie (exampleEnv 0 0 0)
      (v9fs_cache_inode_get_cookie (exampleEnv 0 0 0) (exampleState 0))).log = 2 ∧
    ¬ (v9fs_cache_inode_get_cookie (exampleEnv 0 0 0)
        (v9fs_cache_inode_get_cookie (exampleEnv 0 0 0) (exampleState 0)) =
      v9fs_cache_inode_get_cookie (exampleEnv 0 0 0) (exampleState 0)) := by
  decide

/-- C5, amended: for a regular file whose cookie is absent, when the backend
answers the first acquire with a non-null slot, two calls of
`v9fs_cache_inode_get_cookie` in a row append exactly one event to the log,
the acquire under the session's cookie, and the state after the second call
equals the state after the first, whose cookie is the slot returned. -/
theorem get_cookie_idempotent (E : Env) (s : State)
    (hreg : s.vcookie.inode.S_IREG = true) (h0 : s.vcookie.fscache = 0)
    (hacq : E.acquire_cookie s.log s.v9ses.fscache CookieDef.v9fs_cache_inode_index_def
      NetfsData.vcookie ≠ 0) :
    (v9fs_cache_inode_get_cookie E (v9fs_cache_inode_get_cookie E s)).log =
      s.log ++ [Event.fscache_acquire_cookie s.v9ses.fscache
        CookieDef.v9fs_cache_inode_index_def NetfsData.vcookie
        (E.acquire_cookie s.log s.v9ses.fscache CookieDef.v9fs_cache_inode_index_def
          NetfsData.vcookie)] ∧
    countAcquire (v9fs_cache_inode_get_cookie E (v9fs_cache_inode_get_cookie E s)).log =
      countAcquire s.log + 1 ∧
    v9fs_cache_inode_get_cookie E (v9fs_cache_inode_get_cookie E s) =
      v9fs_cache_inode_get_cookie E s ∧
    (v9fs_cache_inode_get_cookie E s).vcookie.fscache =
      E.acquire_cookie s.log s.v9ses.fscache CookieDef.v9fs_cache_inode_index_def
        NetfsData.vcookie := by
  have h1 : v9fs_cache_inode_get_cookie E s =
      { s with
        vcookie := { s.vcookie with fscache := (E.acquire_cookie s.log s.v9ses.fscache
          CookieDef.v9fs_cache_inode_index_def NetfsData.vcookie) }
        log := s.log ++ [Event.fscache_acquire_cookie s.v9ses.fscache
          CookieDef.v9fs_cache_inode_index_def NetfsData.vcookie
          (E.acquire_cookie s.log s.v9ses.fscache CookieDef.v9fs_cache_inode_index_def
            NetfsData.vcookie)] } := by
    simp [v9fs_cache_inode_get_cookie, hreg, h0, fscache_acquire_cookie, State.emit,
      State.set_fscache]
  have h2 : v9fs_cache_inode_get_cookie E (v9fs_cache_inode_get_cookie E s) =
      v9fs_cache_inode_get_cookie E s := by
    rw [h1]
    simp [v9fs_cache_inode_get_cookie, hreg, hacq]
  refine ⟨?_, ?_, h2, ?_⟩
  · rw [h2, h1]
  · rw [h2, h1]
    exact countAcquire_append_acquire _ _ _ _ _
  · rw [h1]

/-- C5 amended, at a concrete input: a regular file without a cookie and a
backend that answers the acquire with cookie 8. -/
theorem get_cookie_idempotent_witness :
    v9fs_cache_inode_get_cookie (exampleEnv 8 0 0)
        (v9fs_cache_inode_get_cookie (exampleEnv 8 0 0) (exampleState 0)) =
      v9fs_cache_inode_get_cookie (exampleEnv 8 0 0) (exampleState 0) ∧
    (v9fs_cache_inode_get_cookie (exampleEnv 8 0 0) (exampleState 0)).vcookie.fscache = 8 :=
  ⟨(get_cookie_idempotent (exampleEnv 8 0 0) (exampleState 0) (by decide) (by decide)
      (by decide)).2.2.1,
   (get_cookie_idempotent (exampleEnv 8 0 0) (exampleState 0) (by decide) (by decide)
      (by decide)).2.2.2⟩

/-- C6 fails as stated: on a session that already holds cookie 100,
`v9fs_cache_session_get_cookie` calls the backend acquire once and leaves the
session holding the cookie the backend answered, 8, not the existing one. -/
theorem session_get_cookie_replaces_live_cookie :
    (exampleState 7).v9ses.fscache = 100 ∧
    countAcquire (v9fs_cache_session_get_cookie (exampleEnv 8 0 0) (exampleState 7)).log = 1 ∧
    (v9fs_cache_session_get_cookie (exampleEnv 8 0 0) (exampleState 7)).v9ses.fscache = 8 ∧
    (v9fs_cache_session_get_cookie (exampleEnv 8 0 0) (exampleState 7)).v9ses.fscache ≠
      (exampleState 7).v9ses.fscache := by
  decide

/-- C6, amended: whether or not the session already holds a cookie,
`v9fs_cache_session_get_cookie` makes exactly one backend call, an acquire of
the session index definition under the netfs primary index, and leaves the
session holding the one handle the backend returned; the session's other
members and the file cookie are untouched. -/
theorem session_get_cookie_always_acquires (E : Env) (s : State) :
    (v9fs_cache_session_get_cookie E s).log =
      s.log ++ [Event.fscache_acquire_cookie E.primary_index
        CookieDef.v9fs_cache_session_index_def NetfsData.v9ses
        (E.acquire_cookie s.log E.primary_index CookieDef.v9fs_cache_session_index_def
          NetfsData.v9ses)] ∧
    countAcquire (v9fs_cache_session_get_cookie E s).log = countAcquire s.log + 1 ∧
    (v9fs_cache_session_get_cookie E s).v9ses.fscache =
      E.acquire_cookie s.log E.primary_index CookieDef.v9fs_cache_session_index_def
        NetfsData.v9ses ∧
    (v9fs_cache_session_get_cookie E s).v9ses.cache = s.v9ses.cache ∧
    (v9fs_cache_session_get_cookie E s).v9ses.cachetag = s.v9ses.cachetag ∧
    (v9fs_cache_session_get_cookie E s).vcookie = s.vcookie := by
  refine ⟨rfl, ?_, rfl, rfl, rfl, rfl⟩
  exact countAcquire_append_acquire _ _ _ _ _

/-- C7, evaluated: for a file with live cookie 7, a one-page list and a valid
(non-null) `nr_pages` pointer, a batch fill that answers 0, empties the list
and brings the pending count to zero makes `__v9fs_readpages_from_fscache`
end in a fired assertion instead of returning 0. -/
theorem readpages_accepted_hits_assertion :
    (exampleEnv 8 0 0).read_or_alloc_pages (exampleState 7).log 7 [examplePage] 1 = (0, [], 0) ∧
    (__v9fs_readpages_from_fscache linuxConsts (exampleEnv 8 0 0) (exampleState 7)
      [examplePage] { addr := 4096, val := 1 }).out = Outcome.BUG ∧
    (__v9fs_readpages_from_fscache linuxConsts (exampleEnv 8 0 0) (exampleState 7)
      [examplePage] { addr := 4096, val := 1 }).pages = [] ∧
    (__v9fs_readpages_from_fscache linuxConsts (exampleEnv 8 0 0) (exampleState 7)
      [examplePage] { addr := 4096, val := 1 }).nr = 0 := by
  decide

/-- C9: for every page (so for every locked one) and every completion error
code `e`, the fill-completion callback calls `unlock_page` exactly once and
leaves the page unlocked; it calls `SetPageUptodate` if and only if `e` is 0,
after which the page is up to date, and for `e` other than 0 the up-to-date
flag is as it was.  The other page fields are never changed. -/
theorem readpage_complete_unlocks_once (log : List Event) (pg : page) (e : Int) :
    ∃ new, (v9fs_vfs_readpage_complete log pg e).2 = log ++ new ∧
      countUnlock new = 1 ∧
      (v9fs_vfs_readpage_complete log pg e).1.PG_locked = false ∧
      (countSetUptodate new = 1 ↔ e = 0) ∧
      (e = 0 → (v9fs_vfs_readpage_complete log pg e).1.PG_uptodate = true) ∧
      (e ≠ 0 → countSetUptodate new = 0 ∧
        (v9fs_vfs_readpage_complete log pg e).1.PG_uptodate = pg.PG_uptodate) ∧
      (v9fs_vfs_readpage_complete log pg e).1.index = pg.index ∧
      (v9fs_vfs_readpage_complete log pg e).1.PG_fscache = pg.PG_fscache := by
  by_cases he : e = 0
  · refine ⟨[Event.SetPageUptodate pg, Event.unlock_page { pg with PG_uptodate := true }],
      ?_, ?_, ?_, ?_, ?_, ?_, ?_, ?_⟩ <;>
      simp [v9fs_vfs_readpage_complete, he, countUnlock, countSetUptodate]
  · refine ⟨[Event.unlock_page pg], ?_, ?_, ?_, ?_, ?_, ?_, ?_, ?_⟩ <;>
      simp [v9fs_vfs_readpage_complete, he, countUnlock, countSetUptodate]

/-- C10, evaluated: for a session whose tag is "abc" (bytes 97, 98, 99) and a
4-byte buffer, `v9fs_cache_session_get_key` returns 3, the tag's length, and
leaves the session as it was, but the three bytes it writes are the first
three bytes found at the address of the session structure (here 0, 0, 0), not
the bytes of the tag. -/
theorem session_get_key_copies_session_bytes :
    (exampleState 7).v9ses.cachetag = some [97, 98, 99] ∧
    v9fs_cache_session_get_key linuxConsts (exampleEnv 8 0 0) (exampleState 7) [9, 9, 9, 9] 4 =
      (3, [0, 0, 0, 9], exampleState 7) ∧
    (v9fs_cache_session_get_key linuxConsts (exampleEnv 8 0 0) (exampleState 7)
      [9, 9, 9, 9] 4).2.1.take 3 ≠ [97, 98, 99] := by
  decide

/-- Length of a buffer after `memcpy`: the `n` bytes copied, then what the
buffer held beyond them. -/
theorem memcpy_length (dst : List Nat) (src : Nat → Nat) (n : Nat) :
    (memcpy dst src n).length = n + (dst.length - n) := by
  unfold memcpy
  rw [List.length_append, List.length_map, List.length_range, List.length_drop]

/-- Whatever the session and the allocator do, the key length returned is at
most `bufmax`. -/
theorem session_get_key_le_bufmax (K : KConsts) (E : Env) (s : State) (buffer : List Nat)
    (bufmax : Nat) : (v9fs_cache_session_get_key K E s buffer bufmax).1 ≤ bufmax := by
  cases htag : s.v9ses.cachetag with
  | none =>
    have hneg : ¬ ((to_uint16 (v9fs_random_cachetag K E s).1 : Nat) : Int) < 0 :=
      not_lt.mpr (Int.ofNat_nonneg _)
    simp only [v9fs_cache_session_get_key, htag, hneg, if_false]
    split_ifs with h
    · exact Nat.zero_le _
    · exact Nat.le_of_not_gt h
  | some tag =>
    simp only [v9fs_cache_session_get_key, htag]
    split_ifs with h
    · exact Nat.zero_le _
    · exact Nat.le_of_not_gt h

/-- A tag of fewer than 65536 characters that is longer than `bufmax` yields
no key, and neither the buffer nor the state is touched. -/
theorem session_get_key_tag_too_long (K : KConsts) (E : Env) (s : State) (buffer : List Nat)
    (bufmax : Nat) (tag : List Nat) (htag : s.v9ses.cachetag = some tag)
    (hlen : tag.length < 65536) (hlong : bufmax < tag.length) :
    v9fs_cache_session_get_key K E s buffer bufmax = (0, buffer, s) := by
  have h16 : to_uint16 (tag.length : Int) = tag.length := by
    unfold to_uint16
    omega
  simp [v9fs_cache_session_get_key, htag, h16, hlong]

/-- C11, evaluated: for a session without a tag whose tag allocation fails,
`v9fs_random_cachetag` returns `-ENOMEM` (-12); stored in the 16-bit `klen`
this is 65524, which the test `klen < 0` does not catch.  With `bufmax` 65535
the routine returns 65524 and overwrites the buffer with 65524 bytes read at
the session structure, instead of returning 0 and writing nothing; with
`bufmax` 512 the later test `klen > bufmax` makes it return 0 with the buffer
untouched. -/
theorem session_get_key_alloc_failure_not_caught :
    untaggedState.v9ses.cachetag = none ∧
    (v9fs_random_cachetag linuxConsts noMemEnv untaggedState).1 = -12 ∧
    (v9fs_cache_session_get_key linuxConsts noMemEnv untaggedState [9, 9, 9, 9] 65535).1 =
      65524 ∧
    (v9fs_cache_session_get_key linuxConsts noMemEnv untaggedState [9, 9, 9, 9] 65535).2.1 =
      memcpy [9, 9, 9, 9] (fun _ => 0) 65524 ∧
    (v9fs_cache_session_get_key linuxConsts noMemEnv untaggedState
      [9, 9, 9, 9] 65535).2.1.length = 65524 ∧
    (v9fs_cache_session_get_key linuxConsts noMemEnv untaggedState [9, 9, 9, 9] 512).1 = 0 ∧
    (v9fs_cache_session_get_key linuxConsts noMemEnv untaggedState [9, 9, 9, 9] 512).2.1 =
      [9, 9, 9, 9] := by
  have hbuf : (v9fs_cache_session_get_key linuxConsts noMemEnv untaggedState
      [9, 9, 9, 9] 65535).2.1 = memcpy [9, 9, 9, 9] (fun _ => 0) 65524 := rfl
  refine ⟨rfl, by decide, by decide, hbuf, ?_, by decide, by decide⟩
  rw [hbuf, memcpy_length]
  rfl

/-- A step that leaves the slot reference alone is not a switch. -/
theorem slotSwitch_of_eq (a b : State) (h : b.vcookie.fscache = a.vcookie.fscache) :
    slotSwitch a b = false := by
  simp [slotSwitch, h]

/-- A step that repeats the state can be dropped from an execution. -/
theorem switchesUnderLock_repeat (a : State) (l : List State) :
    switchesUnderLock (a :: a :: l) = switchesUnderLock (a :: l) := by
  rw [switchesUnderLock, slotSwitch_of_eq a a rfl]
  rfl

/-- `v9fs_cache_inode_get_cookie` has no lock call: the flag is as it found it. -/
theorem get_cookie_lock (E : Env) (s : State) :
    (v9fs_cache_inode_get_cookie E s).vcookie.lock = s.vcookie.lock := by
  unfold v9fs_cache_inode_get_cookie
  split_ifs <;> rfl

/-- `v9fs_cache_inode_put_cookie` has no lock call: the flag is as it found it. -/
theorem put_cookie_lock (s : State) :
    (v9fs_cache_inode_put_cookie s).vcookie.lock = s.vcookie.lock := by
  unfold v9fs_cache_inode_put_cookie
  split_ifs <;> rfl

/-- `v9fs_cache_inode_flush_cookie` has no lock call: the flag is as it found it. -/
theorem flush_cookie_lock (s : State) :
    (v9fs_cache_inode_flush_cookie s).vcookie.lock = s.vcookie.lock := by
  unfold v9fs_cache_inode_flush_cookie
  split_ifs
  · rfl
  · cases hm : s.vcookie.inode.i_mapping with
    | none => rfl
    | some m =>
      by_cases hn : m.nrpages = 0 <;> simp [hn, State.set_fscache, fscache_relinquish_cookie,
        State.emit]

/-- C12 fails as stated: starting with the lock not held, the slot reference
of a regular file goes from null to cookie 8 in `v9fs_cache_inode_get_cookie`,
and from cookie 7 to null in `v9fs_cache_inode_put_cookie` and in
`v9fs_cache_inode_flush_cookie`, with the lock still not held; and in
`v9fs_cache_inode_set_cookie` on a file without a cookie the preliminary
acquire stores cookie 8 before `spin_lock` is reached. -/
theorem slot_switches_outside_lock :
    (exampleState 0).vcookie.lock = false ∧
    (exampleState 7).vcookie.lock = false ∧
    switchesUnderLock
      (v9fs_cache_inode_get_cookie_steps (exampleEnv 8 0 0) (exampleState 0)) = false ∧
    switchesUnderLock (v9fs_cache_inode_put_cookie_steps (exampleState 7)) = false ∧
    switchesUnderLock (v9fs_cache_inode_flush_cookie_steps (exampleState 7)) = false ∧
    switchesUnderLock (v9fs_cache_inode_set_cookie_steps linuxConsts (exampleEnv 8 0 0)
      (exampleState 0) { flags := 0, private_data := 0 }) = false ∧
    (v9fs_cache_inode_set_cookie linuxConsts (exampleEnv 8 0 0) (exampleState 0)
      { flags := 0, private_data := 0 }).log =
      [Event.fscache_acquire_cookie 100 CookieDef.v9fs_cache_inode_index_def
        NetfsData.vcookie 8, Event.spin_lock, Event.spin_unlock] := by
  decide

/-- C12, amended: with the lock an explicit flag, every switch of the slot
reference between null and non-null made by `v9fs_cache_inode_reset_cookie`,
and every one made by `v9fs_cache_inode_set_cookie` after its preliminary
acquire (so in its release or check-then-create chosen by the access mode),
happens with the lock held; when the file already has a cookie at entry this
covers the whole of `v9fs_cache_inode_set_cookie`.  The routines
`v9fs_cache_inode_get_cookie`, `_put_cookie` and `_flush_cookie` take no lock
and leave the flag as they found it, so their switches happen with the lock
held whenever their caller holds it.  The step lists end in the state the
routine returns. -/
theorem lock_discipline (K : KConsts) (E : Env) (s : State) (filp : file) :
    (v9fs_cache_inode_reset_cookie_steps E s).getLast? =
      some (v9fs_cache_inode_reset_cookie E s) ∧
    (v9fs_cache_inode_set_cookie_steps K E s filp).getLast? =
      some (v9fs_cache_inode_set_cookie K E s filp) ∧
    switchesUnderLock (v9fs_cache_inode_reset_cookie_steps E s) = true ∧
    switchesUnderLock (v9fs_cache_inode_set_cookie_steps K E s filp).tail = true ∧
    (s.vcookie.fscache ≠ 0 →
      switchesUnderLock (v9fs_cache_inode_set_cookie_steps K E s filp) = true) ∧
    (v9fs_cache_inode_get_cookie E s).vcookie.lock = s.vcookie.lock ∧
    (v9fs_cache_inode_put_cookie s).vcookie.lock = s.vcookie.lock ∧
    (v9fs_cache_inode_flush_cookie s).vcookie.lock = s.vcookie.lock ∧
    (s.vcookie.lock = true →
      switchesUnderLock (v9fs_cache_inode_get_cookie_steps E s) = true ∧
      switchesUnderLock (v9fs_cache_inode_put_cookie_steps s) = true ∧
      switchesUnderLock (v9fs_cache_inode_flush_cookie_steps s) = true) := by
  have htail : switchesUnderLock (v9fs_cache_inode_set_cookie_steps K E s filp).tail = true := by
    simp only [v9fs_cache_inode_set_cookie_steps, List.tail_cons, switchesUnderLock,
      Bool.and_true, Bool.and_eq_true, Bool.or_eq_true, Bool.not_eq_true']
    refine ⟨Or.inl (slotSwitch_of_eq _ _ rfl), Or.inr rfl, Or.inl (slotSwitch_of_eq _ _ rfl)⟩
  refine ⟨?_, ?_, ?_, htail, ?_, get_cookie_lock E s, put_cookie_lock s, flush_cookie_lock s, ?_⟩
  · unfold v9fs_cache_inode_reset_cookie_steps v9fs_cache_inode_reset_cookie
    split_ifs <;> rfl
  · rfl
  · unfold v9fs_cache_inode_reset_cookie_steps
    split_ifs
    · rfl
    · simp only [switchesUnderLock, Bool.and_true, Bool.and_eq_true, Bool.or_eq_true,
        Bool.not_eq_true']
      refine ⟨Or.inl (slotSwitch_of_eq _ _ rfl), Or.inl (slotSwitch_of_eq _ _ rfl), Or.inr rfl,
        Or.inl (slotSwitch_of_eq _ _ rfl)⟩
  · intro h
    have h1 : v9fs_cache_inode_set_cookie_steps K E s filp =
        s :: (v9fs_cache_inode_set_cookie_steps K E s filp).tail := rfl
    have h2 : (v9fs_cache_inode_set_cookie_steps K E s filp).tail =
        s :: (v9fs_cache_inode_set_cookie_steps K E s filp).tail.tail := by
      simp [v9fs_cache_inode_set_cookie_steps, h]
    rw [h1, h2, switchesUnderLock_repeat, ← h2]
    exact htail
  · intro h
    simp [v9fs_cache_inode_get_cookie_steps, v9fs_cache_inode_put_cookie_steps,
      v9fs_cache_inode_flush_cookie_steps, switchesUnderLock, h]

/-- C12 amended, at a concrete input: a regular file with live cookie 7 opened
for writing (flags 1); the release of the cookie happens inside the locked
section, and so does the swap made by a reset. -/
theorem lock_discipline_witness :
    switchesUnderLock (v9fs_cache_inode_set_cookie_steps linuxConsts (exampleEnv 8 0 0)
      (exampleState 7) { flags := 1, private_data := 0 }) = true ∧
    switchesUnderLock (v9fs_cache_inode_reset_cookie_steps (exampleEnv 8 0 0)
      (exampleState 7)) = true :=
  ⟨(lock_discipline linuxConsts (exampleEnv 8 0 0) (exampleState 7)
      { flags := 1, private_data := 0 }).2.2.2.2.1 (by decide),
   (lock_discipline linuxConsts (exampleEnv 8 0 0) (exampleState 7)
      { flags := 1, private_data := 0 }).2.2.1⟩

end V9fsCache
